import Mathlib

/-!
Shallow embedding of `src/ltgee/landtrendr.py` (class `Sentinel2LandTrendr`).

Per-pixel Earth Engine array images are modelled as `List (List ℚ)` (rows of
columns, row-major).  Raster values are rationals; Earth Engine per-pixel array
operations (`arraySlice`, `arrayMask`, elementwise arithmetic, `arrayFlatten`,
`unmask`, `toArray`) become explicit list operations.  Masked pixels are the
pixels whose arrays have become empty (Earth Engine masks a pixel when
`arrayMask` drops every element); `unmask` with a constant array replaces such
pixels by that array.  Fallible behaviour (Python `AttributeError`, implicit
`None` returns, shape-mismatched `arrayFlatten`) is modelled with
`Except`/`Option`.
-/

namespace LTS2

/-- Per-pixel 2D numeric array (rows of columns), the model of an Earth Engine
array-image value at one pixel. -/
abbrev Arr := List (List ℚ)

/-- Resolution of a Python/Earth Engine slice endpoint: negative indices count
from the end, nonnegative ones are clamped to the length. -/
def sliceIdx (len : ℕ) (i : ℤ) : ℕ :=
  if i < 0 then ((len : ℤ) + i).toNat else min i.toNat len

/-- Python/Earth Engine slice `xs[s:e]` with an optional end (`none` means "to
the end"), as used by `arraySlice`. -/
def pySlice {α : Type} (xs : List α) (s : ℤ) (e : Option ℤ) : List α :=
  let e2 : ℕ := match e with
    | none => xs.length
    | some e1 => sliceIdx xs.length e1
  (xs.take e2).drop (sliceIdx xs.length s)

/-- Earth Engine `arraySlice(0, s, e)`: slice the rows of a 2D array. -/
def arraySlice0 (a : Arr) (s : ℤ) (e : Option ℤ) : Arr := pySlice a s e

/-- Earth Engine `arraySlice(1, s, e)`: slice the columns of a 2D array. -/
def arraySlice1 (a : Arr) (s : ℤ) (e : Option ℤ) : Arr :=
  a.map (fun r => pySlice r s e)

/-- Keep the entries of row `r` at positions where the mask row `vm` is
nonzero (Earth Engine `arrayMask` along one row). -/
def maskRow (vm r : List ℚ) : List ℚ :=
  (r.zip vm).filterMap (fun q => if q.2 ≠ 0 then some q.1 else none)

/-- Earth Engine `a.arrayMask(m)` where `m` is a `1×N` row mask broadcast over
the rows of `a`: drop the columns at which the mask row is zero. -/
def arrayMaskCols (a m : Arr) : Arr :=
  a.map (fun r => maskRow (m.headD []) r)

/-- Elementwise binary operation on two equal-shaped 2D arrays. -/
def arrMap2 (f : ℚ → ℚ → ℚ) (a b : Arr) : Arr :=
  List.zipWith (List.zipWith f) a b

/-- Earth Engine `a.subtract(b)` on array images. -/
def arrSub (a b : Arr) : Arr := arrMap2 (fun x y => x - y) a b

/-- Earth Engine `a.divide(b)` on array images. -/
def arrDivA (a b : Arr) : Arr := arrMap2 (fun x y => x / y) a b

/-- Earth Engine `a.divide(c)` by a per-pixel scalar band `c`. -/
def arrDivS (a : Arr) (c : ℚ) : Arr := a.map (List.map (fun x => x / c))

/-- Earth Engine `a.multiply(c)` by a constant scalar `c`. -/
def arrScale (a : Arr) (c : ℚ) : Arr := a.map (List.map (fun x => x * c))

/-- Earth Engine `a.abs()` on array images. -/
def arrAbs (a : Arr) : Arr := a.map (List.map (fun x => |x|))

/-- Earth Engine `a.lt(0)`: elementwise indicator, 1 where the entry is
negative and 0 elsewhere. -/
def arrLtZero (a : Arr) : Arr :=
  a.map (List.map (fun x => if x < 0 then (1 : ℚ) else 0))

/-- Earth Engine `a.gt(0)`: elementwise indicator, 1 where the entry is
positive and 0 elsewhere. -/
def arrGtZero (a : Arr) : Arr :=
  a.map (List.map (fun x => if 0 < x then (1 : ℚ) else 0))

/-- Earth Engine `.unmask(ee.Image(ee.Array([[-9999]])))` at one pixel: a
pixel whose array has no elements left is masked, and the sentinel `1×1` array
`[[-9999]]` is substituted for it. -/
def unmaskSentinel (a : Arr) : Arr :=
  if a.all (fun r => r.isEmpty) then [[-9999]] else a

/-- Earth Engine `ee.Image.cat(fields).unmask(ee.Image(ee.Array([[-9999]]))).toArray(0)`:
each banded field (after sentinel substitution) is stacked along axis 0 into a
single per-pixel array. -/
def catToArray0 (fs : List Arr) : Arr :=
  (fs.map unmaskSentinel).flatten

/-- Per-pixel view of the two bands that `get_segment_data` reads: the
`LandTrendr` segmentation array (4 rows: year, source, fitted, is-vertex) and
the scalar `rmse` band. -/
structure LTPixel where
  lt : Arr
  rmse : ℚ
deriving DecidableEq

/-- Convenience constructor for a pixel whose `LandTrendr` array has the four
contract rows year/source/fitted/vertex-mask. -/
def pixOf (yrs src fit vm : List ℚ) (rm : ℚ) : LTPixel :=
  { lt := [yrs, src, fit, vm], rmse := rm }

/-- Line 56: `vertex_mask = lt_band.arraySlice(0, 3, 4)`. -/
def vertex_mask (p : LTPixel) : Arr := arraySlice0 p.lt 3 (some 4)

/-- Line 57: `vertices = lt_band.arrayMask(vertex_mask)`. -/
def vertices (p : LTPixel) : Arr := arrayMaskCols p.lt (vertex_mask p)

/-- Line 59: `left_list = vertices.arraySlice(1, 0, -1)`. -/
def left_list (p : LTPixel) : Arr := arraySlice1 (vertices p) 0 (some (-1))

/-- Line 60: `right_list = vertices.arraySlice(1, 1, None)`. -/
def right_list (p : LTPixel) : Arr := arraySlice1 (vertices p) 1 none

/-- Line 61: `start_year = left_list.arraySlice(0, 0, 1)`. -/
def start_year (p : LTPixel) : Arr := arraySlice0 (left_list p) 0 (some 1)

/-- Line 62: `start_val = left_list.arraySlice(0, 2, 3)`. -/
def start_val (p : LTPixel) : Arr := arraySlice0 (left_list p) 2 (some 3)

/-- Line 63: `end_year = right_list.arraySlice(0, 0, 1)`. -/
def end_year (p : LTPixel) : Arr := arraySlice0 (right_list p) 0 (some 1)

/-- Line 64: `end_val = right_list.arraySlice(0, 2, 3)`. -/
def end_val (p : LTPixel) : Arr := arraySlice0 (right_list p) 2 (some 3)

/-- Line 65: `dur = end_year.subtract(start_year)`. -/
def dur (p : LTPixel) : Arr := arrSub (end_year p) (start_year p)

/-- Line 66: `mag = end_val.subtract(start_val)`. -/
def mag (p : LTPixel) : Arr := arrSub (end_val p) (start_val p)

/-- Line 67: `rate = mag.divide(dur)`. -/
def rate (p : LTPixel) : Arr := arrDivA (mag p) (dur p)

/-- Line 68: `dsnr = mag.divide(rmse)`. -/
def dsnr (p : LTPixel) : Arr := arrDivS (mag p) p.rmse

/-- The `options` dictionary of `get_segment_data`; `right` is the truthiness
of `options.get('right')`. -/
structure GSDOpts where
  right : Bool
deriving DecidableEq

/-- Truthiness of the Python expression `options and options.get('right')`. -/
def optRight (options : Option GSDOpts) : Bool :=
  match options with
  | none => false
  | some o => o.right

/-- Modelled from the spec: the class `Sentinel2LandTrendr` defines no `select`
method, so the two bands read on lines 54-55 cannot be produced by the class
itself; per spec section 6 the segmentation collaborator provides the
`LandTrendr` array band and the scalar `rmse` band, which this body takes as
the per-pixel input `p`.  This is the dispatch and metric computation of
`get_segment_data` (lines 56-95): the Python function has no `else` branch, so
a `delta` outside `all`/`gain`/`loss` falls through and returns `None`
(modelled as `Option.none`). -/
def get_segment_data_body (p : LTPixel) (delta : String) (index_flip : Bool)
    (options : Option GSDOpts) : Option Arr :=
  if delta = "all" then
    let doFlip := optRight options && index_flip
    let sv := if doFlip then arrScale (start_val p) (-1) else start_val p
    let ev := if doFlip then arrScale (end_val p) (-1) else end_val p
    let mg := if doFlip then arrScale (mag p) (-1) else mag p
    let rt := if doFlip then arrScale (rate p) (-1) else rate p
    let ds := if doFlip then arrScale (dsnr p) (-1) else dsnr p
    some (catToArray0 [start_year p, end_year p, sv, ev, mg, dur p, rt, ds])
  else if delta = "gain" ∨ delta = "loss" then
    let change_type_mask := if delta = "gain" then arrLtZero (mag p) else arrGtZero (mag p)
    let flip : ℚ := if index_flip then -1 else 1
    some (catToArray0 [
      arrayMaskCols (start_year p) change_type_mask,
      arrayMaskCols (end_year p) change_type_mask,
      arrScale (arrayMaskCols (start_val p) change_type_mask) flip,
      arrScale (arrayMaskCols (end_val p) change_type_mask) flip,
      arrAbs (arrayMaskCols (mag p) change_type_mask),
      arrayMaskCols (dur p) change_type_mask,
      arrAbs (arrayMaskCols (rate p) change_type_mask),
      arrAbs (arrayMaskCols (dsnr p) change_type_mask)])
  else
    none

/-- Python runtime errors relevant to this class. -/
inductive PyError where
  | attributeError
  | valueError
deriving DecidableEq

/-- The method names that `class Sentinel2LandTrendr` defines (lines 5-145 of
`src/ltgee/landtrendr.py`). -/
def sentinel2LandTrendrMethods : List String :=
  ["__init__", "run_landtrendr", "get_spectral_index", "apply_mmu",
   "get_fitted_data", "get_segment_data", "collection_to_band_stack",
   "get_fitted_rgb_col", "get_segment_count", "getLTvertStack"]

/-- Python attribute lookup `self.<name>` on a `Sentinel2LandTrendr` instance:
instance attributes are `collection_name` and `collection`; anything else must
be a method of the class, otherwise `AttributeError` is raised. -/
def selfMethod (name : String) : Except PyError Unit :=
  if name ∈ sentinel2LandTrendrMethods then Except.ok () else Except.error PyError.attributeError

/-- Lines 50-95, `get_segment_data` as the class actually executes it: line 54
evaluates `self.select('LandTrendr')` and line 55 `self.select('rmse')`; only
then does the metric computation and delta dispatch of
`get_segment_data_body` run. -/
def get_segment_data (p : LTPixel) (delta : String) (index_flip : Bool)
    (options : Option GSDOpts) : Except PyError (Option Arr) := do
  let _ ← selfMethod "select"
  let _ ← selfMethod "select"
  pure (get_segment_data_body p delta index_flip options)

/-- Earth Engine `arrayFlatten([rowLabels, colLabels], sep)` at one pixel: the
2D array must have exactly `rowLabels.length` rows of `colLabels.length`
entries each; the result is the flat list of named bands, row-major, each band
named `rowLabel ++ sep ++ colLabel`. -/
def arrayFlatten2 (a : Arr) (rowL colL : List String) (sep : String) :
    Option (List (String × ℚ)) :=
  if a.length = rowL.length ∧ ∀ r ∈ a, r.length = colL.length then
    some ((rowL.zip a).flatMap
      (fun q => (colL.zip q.2).map (fun c => (q.1 ++ sep ++ c.1, c.2))))
  else none

/-- Lines 153-155: the loop `for i in range(1, maxSegments + 2)` building the
vertex band labels `vert_1 .. vert_(maxSegments+1)`. -/
def vertLabels (maxSegments : ℕ) : List String :=
  (List.range' 1 (maxSegments + 1)).map (fun i => "vert_" ++ toString i)

/-- Lines 153-155: the same loop building `emptyArray`, one `0` per
iteration. -/
def emptyArr (maxSegments : ℕ) : List ℚ :=
  (List.range' 1 (maxSegments + 1)).map (fun _ => (0 : ℚ))

/-- Line 157: `zeros = ee.Image(ee.Array([emptyArray, emptyArray, emptyArray]))`. -/
def zerosArr (maxSegments : ℕ) : Arr :=
  [emptyArr maxSegments, emptyArr maxSegments, emptyArr maxSegments]

/-- Earth Engine `a.addBands(b).toArray(1)` on two array bands with the same
number of rows: concatenate the two arrays along axis 1 (row-wise append). -/
def addBandsToArray1 (a b : Arr) : Arr :=
  List.zipWith (fun r s => r ++ s) a b

/-- Lines 145-168, `getLTvertStack` at one pixel: mask the `LandTrendr` array
by its vertex row, keep the 3 informative rows, append the zero padding along
axis 1, truncate to `maxSegments + 1` columns, and flatten into named bands
labelled by `[['yrs_', 'src_', 'fit_'], vertLabels]` with separator `''`. -/
def getLTvertStack (lt : Arr) (maxSegments : ℕ) : Option (List (String × ℚ)) :=
  let vmask := arraySlice0 lt 3 (some 4)
  let stack := arraySlice1
    (addBandsToArray1 (arraySlice0 (arrayMaskCols lt vmask) 0 (some 3)) (zerosArr maxSegments))
    0 (some ((maxSegments : ℤ) + 1))
  arrayFlatten2 stack ["yrs_", "src_", "fit_"] (vertLabels maxSegments) ""

/-- Earth Engine `arrayFlatten([labels])` on a 1D per-pixel array: the array
length must match the label count; the result is the list of named bands. -/
def arrayFlatten1 (xs : List ℚ) (lbls : List String) : Option (List (String × ℚ)) :=
  if xs.length = lbls.length then some (lbls.zip xs) else none

/-- Python dates as used by this class: only the year/month/day fields. -/
structure PyDate where
  year : ℕ
  month : ℕ
  day : ℕ
deriving DecidableEq

/-- Line 46: `search = 'ftv_' + index.lower() + '_fit'`. -/
def searchBand (index : String) : String :=
  "ftv_" ++ index.toLower ++ "_fit"

/-- Lines 42-48, `get_fitted_data` at one pixel.  The collection's per-pixel
bands are modelled as a map `ftv` from band name to the per-pixel 1D annual
array; `select(search)` reads the `ftv_<index>_fit` band and `arrayFlatten`
labels its entries with the year strings
`[str(y) for y in range(start_date.year, end_date.year + 1)]`. -/
def get_fitted_data (ftv : String → List ℚ) (index : String)
    (start_date end_date : PyDate) : Option (List (String × ℚ)) :=
  arrayFlatten1 (ftv (searchBand index))
    ((List.range' start_date.year (end_date.year + 1 - start_date.year)).map
      (fun y => toString y))

/-- Band lookup by name in a named band stack (Earth Engine `select` of a
single band; selecting a missing band is an error, modelled as `none`). -/
def bandLookup (bands : List (String × ℚ)) (nm : String) : Option ℚ :=
  (bands.find? (fun q => q.1 == nm)).map Prod.snd

/-- One visualized annual composite produced by `get_fitted_rgb_col` at one
pixel: the three renamed bands `R`, `G`, `B` plus the two properties set on
lines 132-135 (`system:time_start`, kept as the year/month/day triple it is
built from, and `composite_year`). -/
structure RGBImage where
  R : ℚ
  G : ℚ
  B : ℚ
  time_start : ℕ × ℕ × ℕ
  composite_year : ℕ
deriving DecidableEq

/-- Lines 114-137, `get_fitted_rgb_col` at one pixel.  For each year of
`range(start_date.year, end_date.year + 1)` (ascending), the year band is
selected from each of the three fitted stacks and renamed to `R`/`G`/`B`;
`visualize(**vis_params)` is opaque to this core and keeps the three values;
the final `map` sets `system:time_start` to
`ee.Date.fromYMD(start_date.year, start_date.month, start_date.day)` and
`composite_year` to `start_date.year` on every composite. -/
def get_fitted_rgb_col (ftv : String → List ℚ) (bands : List String)
    (start_date end_date : PyDate) : Option (List RGBImage) :=
  match bands with
  | [b0, b1, b2] => do
    let r ← get_fitted_data ftv b0 start_date end_date
    let g ← get_fitted_data ftv b1 start_date end_date
    let b ← get_fitted_data ftv b2 start_date end_date
    let years := List.range' start_date.year (end_date.year + 1 - start_date.year)
    let rgbList ← years.mapM (fun y => do
      let rv ← bandLookup r (toString y)
      let gv ← bandLookup g (toString y)
      let bv ← bandLookup b (toString y)
      pure (rv, gv, bv))
    some (rgbList.map (fun t =>
      { R := t.1, G := t.2.1, B := t.2.2,
        time_start := (start_date.year, start_date.month, start_date.day),
        composite_year := start_date.year }))
  | _ => none

/-- A single-band raster for `apply_mmu`: a finite 2D grid of values. -/
abbrev Grid := List (List ℚ)

/-- Value of a grid at coordinate `(i, j)`; `none` outside the grid. -/
def gridGet (g : Grid) (c : ℕ × ℕ) : Option ℚ :=
  (g.get? c.1).bind (fun r => r.get? c.2)

/-- Line 36: `image.select([0]).gte(ee.Number(1)).selfMask()` at one pixel:
the pixel is in the foreground iff its value is at least 1. -/
def fgMem (g : Grid) (c : ℕ × ℕ) : Bool :=
  match gridGet g c with
  | some v => decide (1 ≤ v)
  | none => false

/-- Four-connected neighbours of a grid coordinate (natural subtraction clamps
at the border; a clamped neighbour coincides with the cell itself, which is
harmless for reachability). -/
def nbrs (c : ℕ × ℕ) : List (ℕ × ℕ) :=
  [(c.1 + 1, c.2), (c.1, c.2 + 1), (c.1 - 1, c.2), (c.1, c.2 - 1)]

/-- One expansion step of a flood fill over the foreground cells of `g`. -/
def floodStep (g : Grid) (s : List (ℕ × ℕ)) : List (ℕ × ℕ) :=
  (s ++ (s.flatMap nbrs).filter (fgMem g)).dedup

/-- Total number of cells of the grid, an upper bound on any connected
component's size. -/
def cellCount (g : Grid) : ℕ :=
  (g.map List.length).sum

/-- The connected component of `c` among the foreground cells, computed by
iterating the flood fill to saturation. -/
def component (g : Grid) (c : ℕ × ℕ) : List (ℕ × ℕ) :=
  (floodStep g)^[cellCount g + 1] [c]

/-- Modelled from the spec: `connectedPixelCount()` (line 38) is an Earth
Engine primitive, not code of this repository; per spec section 4.6 it labels
each retained pixel with the size of its connected component of foreground
pixels (the spec allows either 4- or 8-connectivity; 4-connectivity is used
here), and is only defined on unmasked (foreground) pixels. -/
def connectedPixelCount (g : Grid) (c : ℕ × ℕ) : Option ℕ :=
  if fgMem g c then some (component g c).length else none

/-- Lines 31-40, `apply_mmu` at one pixel of the output grid: the composition
`gte(1).selfMask().connectedPixelCount()` then `gte(mmu_value).selfMask()`
then `unmask()` (the `reproject` keeps the pixel grid of the model).  A cell
is 1 iff it is foreground and its component size reaches `mmu_value`, else
0. -/
def apply_mmu (g : Grid) (mmu_value : ℕ) : Grid :=
  (List.range g.length).map (fun i =>
    (List.range ((g.get? i).getD []).length).map (fun j =>
      match connectedPixelCount g (i, j) with
      | some n => if mmu_value ≤ n then (1 : ℚ) else 0
      | none => 0))

section Helpers

/-- Dropping `min s L` elements is the same as dropping `s` when the list is no
longer than `L`. -/
lemma drop_min_of_le {α : Type} (l : List α) (s L : ℕ) (h : l.length ≤ L) :
    l.drop (min s L) = l.drop s := by
  rcases le_total s L with hs | hs
  · rw [min_eq_left hs]
  · rw [min_eq_right hs, List.drop_eq_nil_of_le h,
      List.drop_eq_nil_of_le (le_trans h hs)]

/-- Taking `min e (length)` elements is the same as taking `e`. -/
lemma take_min_self {α : Type} (r : List α) (e : ℕ) :
    r.take (min e r.length) = r.take e := by
  rw [← List.take_take, List.take_length]

/-- Resolution of a nonnegative slice endpoint clamps to the length. -/
lemma sliceIdx_natCast (len s : ℕ) : sliceIdx len (s : ℤ) = min s len := by
  unfold sliceIdx
  rw [if_neg (by omega)]
  simp

/-- Resolution of the slice endpoint 0. -/
lemma sliceIdx_zero (len : ℕ) : sliceIdx len 0 = 0 := by
  unfold sliceIdx
  rw [if_neg (by omega)]
  simp

/-- Resolution of the slice endpoint -1. -/
lemma sliceIdx_negone (len : ℕ) : sliceIdx len (-1) = len - 1 := by
  unfold sliceIdx
  rw [if_pos (by omega)]
  omega

/-- A Python slice with nonnegative endpoints is a take-then-drop. -/
lemma pySlice_nat {α : Type} (r : List α) (s e : ℕ) :
    pySlice r (s : ℤ) (some (e : ℤ)) = (r.take e).drop s := by
  show (r.take (sliceIdx r.length (e : ℤ))).drop (sliceIdx r.length (s : ℤ)) = _
  rw [sliceIdx_natCast, sliceIdx_natCast, take_min_self]
  exact drop_min_of_le _ _ _ (by rw [List.length_take]; exact min_le_right _ _)

/-- A Python slice with no end point drops the first `s` elements. -/
lemma pySlice_none {α : Type} (r : List α) (s : ℕ) :
    pySlice r (s : ℤ) none = r.drop s := by
  show (r.take r.length).drop (sliceIdx r.length (s : ℤ)) = _
  rw [List.take_length, sliceIdx_natCast]
  exact drop_min_of_le _ _ _ le_rfl

/-- The slice `xs[0:-1]` keeps all but the last element. -/
lemma pySlice_zero_negone {α : Type} (r : List α) :
    pySlice r 0 (some (-1)) = r.take (r.length - 1) := by
  show (r.take (sliceIdx r.length (-1))).drop (sliceIdx r.length 0) = _
  rw [sliceIdx_negone, sliceIdx_zero, List.drop_zero]

/-- Element lookup through `zipWith`. -/
lemma getElem?_zipWith_some {f : ℚ → ℚ → ℚ} {a b : List ℚ} {i : ℕ} {x y : ℚ}
    (ha : a[i]? = some x) (hb : b[i]? = some y) :
    (List.zipWith f a b)[i]? = some (f x y) := by
  induction a generalizing b i with
  | nil => simp at ha
  | cons p ps ih =>
    cases b with
    | nil => simp at hb
    | cons q qs =>
      cases i with
      | zero => simp_all
      | succ n => simpa using ih (by simpa using ha) (by simpa using hb)

end Helpers

section PixelLemmas

/-- The single row of a `1×K` array band (its only row, or `[]` at a fully
masked pixel). -/
def arrRow0 (a : Arr) : List ℚ := a.headD []

/-- Line 56 evaluated on a contract-shaped pixel: the vertex mask is the
fourth row. -/
lemma vertex_mask_pixOf (yrs src fit vm : List ℚ) (rm : ℚ) :
    vertex_mask (pixOf yrs src fit vm rm) = [vm] := by
  show pySlice [yrs, src, fit, vm] ((3 : ℕ) : ℤ) (some ((4 : ℕ) : ℤ)) = [vm]
  rw [pySlice_nat]
  rfl

/-- Line 57 evaluated on a contract-shaped pixel: every row is masked by the
vertex row. -/
lemma vertices_pixOf (yrs src fit vm : List ℚ) (rm : ℚ) :
    vertices (pixOf yrs src fit vm rm) =
      [maskRow vm yrs, maskRow vm src, maskRow vm fit, maskRow vm vm] := by
  unfold vertices
  rw [vertex_mask_pixOf]
  rfl

/-- Line 59 evaluated: each row keeps all but its last column. -/
lemma left_list_pixOf (yrs src fit vm : List ℚ) (rm : ℚ) :
    left_list (pixOf yrs src fit vm rm) =
      [(maskRow vm yrs).take ((maskRow vm yrs).length - 1),
       (maskRow vm src).take ((maskRow vm src).length - 1),
       (maskRow vm fit).take ((maskRow vm fit).length - 1),
       (maskRow vm vm).take ((maskRow vm vm).length - 1)] := by
  unfold left_list arraySlice1
  rw [vertices_pixOf]
  simp [pySlice_zero_negone]

/-- Line 60 evaluated: each row drops its first column. -/
lemma right_list_pixOf (yrs src fit vm : List ℚ) (rm : ℚ) :
    right_list (pixOf yrs src fit vm rm) =
      [(maskRow vm yrs).drop 1, (maskRow vm src).drop 1,
       (maskRow vm fit).drop 1, (maskRow vm vm).drop 1] := by
  unfold right_list arraySlice1
  rw [vertices_pixOf]
  have h : ∀ r : List ℚ, pySlice r 1 none = r.drop 1 := fun r => pySlice_none r 1
  simp [h]

/-- Line 61 evaluated: `start_year` is row 0 of the left list. -/
lemma start_year_pixOf (yrs src fit vm : List ℚ) (rm : ℚ) :
    start_year (pixOf yrs src fit vm rm) =
      [(maskRow vm yrs).take ((maskRow vm yrs).length - 1)] := by
  unfold start_year
  rw [left_list_pixOf]
  show pySlice _ ((0 : ℕ) : ℤ) (some ((1 : ℕ) : ℤ)) = _
  rw [pySlice_nat]
  rfl

/-- Line 62 evaluated: `start_val` is row 2 (the fitted row) of the left
list. -/
lemma start_val_pixOf (yrs src fit vm : List ℚ) (rm : ℚ) :
    start_val (pixOf yrs src fit vm rm) =
      [(maskRow vm fit).take ((maskRow vm fit).length - 1)] := by
  unfold start_val
  rw [left_list_pixOf]
  show pySlice _ ((2 : ℕ) : ℤ) (some ((3 : ℕ) : ℤ)) = _
  rw [pySlice_nat]
  rfl

/-- Line 63 evaluated: `end_year` is row 0 of the right list. -/
lemma end_year_pixOf (yrs src fit vm : List ℚ) (rm : ℚ) :
    end_year (pixOf yrs src fit vm rm) = [(maskRow vm yrs).drop 1] := by
  unfold end_year
  rw [right_list_pixOf]
  show pySlice _ ((0 : ℕ) : ℤ) (some ((1 : ℕ) : ℤ)) = _
  rw [pySlice_nat]
  rfl

/-- Line 64 evaluated: `end_val` is row 2 (the fitted row) of the right
list. -/
lemma end_val_pixOf (yrs src fit vm : List ℚ) (rm : ℚ) :
    end_val (pixOf yrs src fit vm rm) = [(maskRow vm fit).drop 1] := by
  unfold end_val
  rw [right_list_pixOf]
  show pySlice _ ((2 : ℕ) : ℤ) (some ((3 : ℕ) : ℤ)) = _
  rw [pySlice_nat]
  rfl

end PixelLemmas

/-- C3: for every pixel and every pair of adjacent valid vertices (column `j`
paired with column `j+1` of the vertex-masked array, i.e. one column of the
left/right vertex-aligned arrays), `get_segment_data` derives `start_year` and
`end_year` from array row 0 of the left and right vertex respectively,
`start_value` and `end_value` from the fitted-value row (row 2, not the source
row 1), `duration = end_year - start_year`, `magnitude = end_value -
start_value`, `rate = magnitude / duration`, and `dSNR = magnitude / rmse`
with `rmse` the per-pixel scalar rmse band. -/
theorem C3_segment_metric_derivation
    (yrs src fit vm : List ℚ) (rm y0 y1 f0 f1 : ℚ) (j : ℕ)
    (h0 : (maskRow vm yrs)[j]? = some y0)
    (h1 : (maskRow vm yrs)[j + 1]? = some y1)
    (h2 : (maskRow vm fit)[j]? = some f0)
    (h3 : (maskRow vm fit)[j + 1]? = some f1)
    (hdur : y1 - y0 ≠ 0) (hrm : rm ≠ 0) :
    (arrRow0 (start_year (pixOf yrs src fit vm rm)))[j]? = some y0 ∧
    (arrRow0 (end_year (pixOf yrs src fit vm rm)))[j]? = some y1 ∧
    (arrRow0 (start_val (pixOf yrs src fit vm rm)))[j]? = some f0 ∧
    (arrRow0 (end_val (pixOf yrs src fit vm rm)))[j]? = some f1 ∧
    (arrRow0 (dur (pixOf yrs src fit vm rm)))[j]? = some (y1 - y0) ∧
    (arrRow0 (mag (pixOf yrs src fit vm rm)))[j]? = some (f1 - f0) ∧
    (arrRow0 (rate (pixOf yrs src fit vm rm)))[j]? = some ((f1 - f0) / (y1 - y0)) ∧
    (arrRow0 (dsnr (pixOf yrs src fit vm rm)))[j]? = some ((f1 - f0) / rm) := by
  have hylen : j + 1 < (maskRow vm yrs).length := (List.getElem?_eq_some_iff.mp h1).1
  have hflen : j + 1 < (maskRow vm fit).length := (List.getElem?_eq_some_iff.mp h3).1
  have hys : ((maskRow vm yrs).take ((maskRow vm yrs).length - 1))[j]? = some y0 := by
    rw [List.getElem?_take_of_lt (by omega), h0]
  have hye : ((maskRow vm yrs).drop 1)[j]? = some y1 := by
    rw [List.getElem?_drop, show 1 + j = j + 1 from by omega, h1]
  have hfs : ((maskRow vm fit).take ((maskRow vm fit).length - 1))[j]? = some f0 := by
    rw [List.getElem?_take_of_lt (by omega), h2]
  have hfe : ((maskRow vm fit).drop 1)[j]? = some f1 := by
    rw [List.getElem?_drop, show 1 + j = j + 1 from by omega, h3]
  have hdu : (List.zipWith (fun x y => x - y) ((maskRow vm yrs).drop 1)
      ((maskRow vm yrs).take ((maskRow vm yrs).length - 1)))[j]? = some (y1 - y0) :=
    getElem?_zipWith_some hye hys
  have hmg : (List.zipWith (fun x y => x - y) ((maskRow vm fit).drop 1)
      ((maskRow vm fit).take ((maskRow vm fit).length - 1)))[j]? = some (f1 - f0) :=
    getElem?_zipWith_some hfe hfs
  refine ⟨?_, ?_, ?_, ?_, ?_, ?_, ?_, ?_⟩
  · rw [start_year_pixOf]; exact hys
  · rw [end_year_pixOf]; exact hye
  · rw [start_val_pixOf]; exact hfs
  · rw [end_val_pixOf]; exact hfe
  · unfold dur arrSub arrMap2
    rw [end_year_pixOf, start_year_pixOf]
    exact hdu
  · unfold mag arrSub arrMap2
    rw [end_val_pixOf, start_val_pixOf]
    exact hmg
  · unfold rate arrDivA mag dur arrSub arrMap2
    rw [end_val_pixOf, start_val_pixOf, end_year_pixOf, start_year_pixOf]
    exact getElem?_zipWith_some hmg hdu
  · unfold dsnr arrDivS mag arrSub arrMap2
    rw [end_val_pixOf, start_val_pixOf]
    show ((List.zipWith (fun x y => x - y) ((maskRow vm fit).drop 1)
      ((maskRow vm fit).take ((maskRow vm fit).length - 1))).map (fun x => x / rm))[j]? = _
    rw [List.getElem?_map, hmg]
    rfl

/-- Witness for C3 at the pixel with vertex years 2000, 2005, 2010, source
values 10, 16, 11, fitted values 11, 15, 12, all columns valid, rmse 2, at
the first adjacent pair of vertices. -/
theorem C3_segment_metric_derivation_witness :
    ((maskRow [1, 1, 1] [2000, 2005, 2010])[0]? = some 2000 ∧
     (maskRow [1, 1, 1] [2000, 2005, 2010])[0 + 1]? = some 2005 ∧
     (maskRow [1, 1, 1] [11, 15, 12])[0]? = some 11 ∧
     (maskRow [1, 1, 1] [11, 15, 12])[0 + 1]? = some 15 ∧
     (2005 : ℚ) - 2000 ≠ 0 ∧ (2 : ℚ) ≠ 0) ∧
    ((arrRow0 (start_year (pixOf [2000, 2005, 2010] [10, 16, 11] [11, 15, 12] [1, 1, 1] 2)))[0]? = some 2000 ∧
     (arrRow0 (end_year (pixOf [2000, 2005, 2010] [10, 16, 11] [11, 15, 12] [1, 1, 1] 2)))[0]? = some 2005 ∧
     (arrRow0 (start_val (pixOf [2000, 2005, 2010] [10, 16, 11] [11, 15, 12] [1, 1, 1] 2)))[0]? = some 11 ∧
     (arrRow0 (end_val (pixOf [2000, 2005, 2010] [10, 16, 11] [11, 15, 12] [1, 1, 1] 2)))[0]? = some 15 ∧
     (arrRow0 (dur (pixOf [2000, 2005, 2010] [10, 16, 11] [11, 15, 12] [1, 1, 1] 2)))[0]? = some ((2005 : ℚ) - 2000) ∧
     (arrRow0 (mag (pixOf [2000, 2005, 2010] [10, 16, 11] [11, 15, 12] [1, 1, 1] 2)))[0]? = some ((15 : ℚ) - 11) ∧
     (arrRow0 (rate (pixOf [2000, 2005, 2010] [10, 16, 11] [11, 15, 12] [1, 1, 1] 2)))[0]? = some (((15 : ℚ) - 11) / ((2005 : ℚ) - 2000)) ∧
     (arrRow0 (dsnr (pixOf [2000, 2005, 2010] [10, 16, 11] [11, 15, 12] [1, 1, 1] 2)))[0]? = some (((15 : ℚ) - 11) / 2)) :=
  ⟨⟨rfl, rfl, rfl, rfl, by norm_num, by norm_num⟩,
   C3_segment_metric_derivation [2000, 2005, 2010] [10, 16, 11] [11, 15, 12] [1, 1, 1]
     2 2000 2005 11 15 0 rfl rfl rfl rfl (by norm_num) (by norm_num)⟩

/-- C1: for every value of `delta`, `index_flip` and `options`, calling
`get_segment_data` fails before producing any segment data: line 54 evaluates
`self.select('LandTrendr')` (and line 55 would evaluate `self.select('rmse')`),
but the class `Sentinel2LandTrendr` defines no `select` method, so the call
raises `AttributeError` unconditionally and no argument combination reaches
the metric computation. -/
theorem C1_get_segment_data_always_attribute_error
    (p : LTPixel) (delta : String) (index_flip : Bool) (options : Option GSDOpts) :
    get_segment_data p delta index_flip options = Except.error PyError.attributeError := rfl

/-- C2: evaluation of `get_segment_data` at the invalid delta value `"shift"`.
The delta dispatch itself (modelled with the two `select` reads provided, as
`get_segment_data_body`) has no `else` branch and falls through to the
implicit Python `None` — a silent default, not an invalid-argument failure —
while for the valid delta `"all"` the same dispatch produces a result; in the
class as written the call instead raises `AttributeError` (from the missing
`select`), which is an attribute-lookup failure, not an invalid-argument
one. -/
theorem C2_invalid_delta_returns_none :
    get_segment_data_body (pixOf [2000, 2005] [10, 16] [11, 15] [1, 1] 2) "shift" false none = none ∧
    (get_segment_data_body (pixOf [2000, 2005] [10, 16] [11, 15] [1, 1] 2) "all" false none).isSome = true ∧
    get_segment_data (pixOf [2000, 2005] [10, 16] [11, 15] [1, 1] 2) "shift" false none
      = Except.error PyError.attributeError :=
  ⟨rfl, rfl, rfl⟩

section Bridge

/-- An array band built by `get_segment_data` has at most one row: `xs[0:1]`
has at most one element. -/
lemma pySlice_01_len_le {α : Type} (l : List α) : (pySlice l 0 (some 1)).length ≤ 1 := by
  show ((l.take (sliceIdx l.length ((1 : ℕ) : ℤ))).drop (sliceIdx l.length 0)).length ≤ 1
  rw [sliceIdx_natCast, sliceIdx_zero]
  simp only [List.drop_zero, List.length_take]
  omega

/-- An array band built by `get_segment_data` has at most one row: `xs[2:3]`
has at most one element. -/
lemma pySlice_23_len_le {α : Type} (l : List α) : (pySlice l 2 (some 3)).length ≤ 1 := by
  show ((l.take (sliceIdx l.length ((3 : ℕ) : ℤ))).drop (sliceIdx l.length ((2 : ℕ) : ℤ))).length ≤ 1
  rw [sliceIdx_natCast, sliceIdx_natCast]
  simp only [List.length_drop, List.length_take]
  omega

/-- The `start_year` band has at most one row. -/
lemma start_year_len_le (p : LTPixel) : (start_year p).length ≤ 1 := pySlice_01_len_le _

/-- The `end_year` band has at most one row. -/
lemma end_year_len_le (p : LTPixel) : (end_year p).length ≤ 1 := pySlice_01_len_le _

/-- The `start_val` band has at most one row. -/
lemma start_val_len_le (p : LTPixel) : (start_val p).length ≤ 1 := pySlice_23_len_le _

/-- The `end_val` band has at most one row. -/
lemma end_val_len_le (p : LTPixel) : (end_val p).length ≤ 1 := pySlice_23_len_le _

/-- The `dur` band has at most one row. -/
lemma dur_len_le (p : LTPixel) : (dur p).length ≤ 1 := by
  have h := end_year_len_le p
  unfold dur arrSub arrMap2
  rw [List.length_zipWith]
  omega

/-- The `mag` band has at most one row. -/
lemma mag_len_le (p : LTPixel) : (mag p).length ≤ 1 := by
  have h := end_val_len_le p
  unfold mag arrSub arrMap2
  rw [List.length_zipWith]
  omega

/-- The `rate` band has at most one row. -/
lemma rate_len_le (p : LTPixel) : (rate p).length ≤ 1 := by
  have h := mag_len_le p
  unfold rate arrDivA arrMap2
  rw [List.length_zipWith]
  omega

/-- The `dsnr` band has at most one row. -/
lemma dsnr_len_le (p : LTPixel) : (dsnr p).length ≤ 1 := by
  have h := mag_len_le p
  unfold dsnr arrDivS
  rw [List.length_map]
  exact h

/-- Sentinel substitution on an at-most-one-row band, expressed on its row. -/
lemma unmaskSentinel_le_one (X : Arr) (hX : X.length ≤ 1) :
    unmaskSentinel X = [if (arrRow0 X).isEmpty then [-9999] else arrRow0 X] := by
  match X with
  | [] => simp [unmaskSentinel, arrRow0]
  | [r] =>
    by_cases hr : r.isEmpty <;> simp [unmaskSentinel, arrRow0, hr]
  | _ :: _ :: _ => simp at hX

/-- The cat-unmask-stack step on at-most-one-row bands: the result is one row
per field, the field's row or the sentinel row `[-9999]` where the field is
empty. -/
lemma catToArray0_rows (fs : List Arr) (h : ∀ f ∈ fs, f.length ≤ 1) :
    catToArray0 fs
      = fs.map (fun f => if (arrRow0 f).isEmpty then [-9999] else arrRow0 f) := by
  induction fs with
  | nil => rfl
  | cons f rest ih =>
    have hf := h f (by simp)
    have hrest : ∀ g ∈ rest, g.length ≤ 1 := fun g hg => h g (by simp [hg])
    unfold catToArray0 at ih ⊢
    simp only [List.map_cons, List.flatten_cons, ih hrest,
      unmaskSentinel_le_one f hf, List.singleton_append]

/-- Mapping a row function through an at-most-one-row band. -/
lemma arrRow0_map (f : List ℚ → List ℚ) (hf : f [] = []) (X : Arr) :
    arrRow0 (X.map f) = f (arrRow0 X) := by
  cases X <;> simp [arrRow0, hf]

end Bridge

/-- The delta-all output as the claim states it: when the orientation option
`right` is set and `index_flip` is true, exactly the five fields
`start_value`, `end_value`, `magnitude`, `rate` and `dSNR` are negated while
`start_year`, `end_year` and `duration` are unchanged; when the orientation
option is unset or `index_flip` is false, all eight fields are the raw metric
values; absent entries become the sentinel -9999 and the eight fields are
collapsed into one array, one row per field. -/
def allDeltaClaim (p : LTPixel) (index_flip rightOpt : Bool) : Arr :=
  let neg : List ℚ → List ℚ := fun r => r.map (fun x => -x)
  let rows : List (List ℚ) :=
    if rightOpt && index_flip then
      [arrRow0 (start_year p), arrRow0 (end_year p),
       neg (arrRow0 (start_val p)), neg (arrRow0 (end_val p)),
       neg (arrRow0 (mag p)), arrRow0 (dur p),
       neg (arrRow0 (rate p)), neg (arrRow0 (dsnr p))]
    else
      [arrRow0 (start_year p), arrRow0 (end_year p), arrRow0 (start_val p),
       arrRow0 (end_val p), arrRow0 (mag p), arrRow0 (dur p),
       arrRow0 (rate p), arrRow0 (dsnr p)]
  rows.map (fun r => if r.isEmpty then [-9999] else r)

/-- C5: for `delta == 'all'`, `get_segment_data` negates exactly the five
fields start_value, end_value, magnitude, rate and dSNR when both the
orientation option `right` is set and `index_flip` is true, leaves
start_year, end_year and duration unchanged, and when the orientation option
is unset or `index_flip` is false all eight output fields equal the raw
values from the metric computation — no masking by direction and no hidden
transform. -/
theorem C5_all_delta_orientation_flip
    (p : LTPixel) (index_flip : Bool) (options : Option GSDOpts) :
    get_segment_data_body p "all" index_flip options
      = some (allDeltaClaim p index_flip (optRight options)) := by
  have hrows : ∀ c : ℚ, ∀ f ∈ [start_year p, end_year p,
      arrScale (start_val p) c, arrScale (end_val p) c, arrScale (mag p) c,
      dur p, arrScale (rate p) c, arrScale (dsnr p) c], f.length ≤ 1 := by
    intro c f hf
    simp only [List.mem_cons, List.not_mem_nil, or_false] at hf
    rcases hf with h | h | h | h | h | h | h | h <;> subst h <;>
      first
        | exact start_year_len_le p
        | exact end_year_len_le p
        | exact dur_len_le p
        | (unfold arrScale; rw [List.length_map];
           first
             | exact start_val_len_le p
             | exact end_val_len_le p
             | exact mag_len_le p
             | exact rate_len_le p
             | exact dsnr_len_le p)
  have hraw : ∀ f ∈ [start_year p, end_year p, start_val p, end_val p, mag p,
      dur p, rate p, dsnr p], f.length ≤ 1 := by
    intro f hf
    simp only [List.mem_cons, List.not_mem_nil, or_false] at hf
    rcases hf with h | h | h | h | h | h | h | h <;> subst h <;>
      first
        | exact start_year_len_le p
        | exact end_year_len_le p
        | exact start_val_len_le p
        | exact end_val_len_le p
        | exact mag_len_le p
        | exact dur_len_le p
        | exact rate_len_le p
        | exact dsnr_len_le p
  unfold get_segment_data_body allDeltaClaim
  rw [if_pos rfl]
  cases hflip : optRight options && index_flip with
  | false =>
    simp only [hflip, Bool.false_eq_true, if_false]
    rw [catToArray0_rows _ hraw]
    rfl
  | true =>
    simp only [hflip, if_true]
    rw [catToArray0_rows _ (hrows (-1))]
    simp only [List.map_cons, List.map_nil]
    have hsc : ∀ X : Arr, arrRow0 (arrScale X (-1)) = (arrRow0 X).map (fun x => -x) := by
      intro X
      unfold arrScale
      rw [arrRow0_map _ rfl X]
      simp
    rw [hsc (start_val p), hsc (end_val p), hsc (mag p), hsc (rate p), hsc (dsnr p)]

/-- Masking a row by a 0/1 indicator row is filtering by the indicated
predicate on the paired entries. -/
lemma maskRow_indicator (pr : ℚ → Prop) [DecidablePred pr] (m r : List ℚ) :
    maskRow (m.map (fun x => if pr x then (1 : ℚ) else 0)) r
      = (r.zip m).filterMap (fun q => if pr q.2 then some q.1 else none) := by
  induction r generalizing m with
  | nil => rfl
  | cons a as ih =>
    cases m with
    | nil => rfl
    | cons b bs =>
      unfold maskRow at ih ⊢
      simp only [List.map_cons, List.zip_cons_cons, List.filterMap_cons]
      by_cases hb : pr b
      · simp only [hb, if_true, if_pos (one_ne_zero)]
        rw [ih bs]
      · simp only [hb, if_false, if_neg (by simp : ¬ ((0 : ℚ) ≠ 0))]
        rw [ih bs]

/-- The first row of an indicator-masked band, as a filter of the paired
entries. -/
lemma arrRow0_maskCols_indicator (pr : ℚ → Prop) [DecidablePred pr] (mg X : Arr) :
    arrRow0 (arrayMaskCols X (mg.map (List.map (fun x => if pr x then (1 : ℚ) else 0))))
      = ((arrRow0 X).zip (arrRow0 mg)).filterMap
          (fun q => if pr q.2 then some q.1 else none) := by
  unfold arrayMaskCols
  rw [arrRow0_map _ rfl X]
  have h : (mg.map (List.map fun x => if pr x then (1 : ℚ) else 0)).headD []
      = (arrRow0 mg).map (fun x => if pr x then (1 : ℚ) else 0) := arrRow0_map _ rfl mg
  rw [h]
  exact maskRow_indicator pr (arrRow0 mg) (arrRow0 X)

/-- The gain/loss output as the claim states it: keep exactly the segments
whose raw magnitude is negative (gain) or positive (loss); `start_value` and
`end_value` are multiplied by -1 iff `index_flip` is true; `magnitude`,
`rate` and `dSNR` are reported as their absolute values regardless of
`index_flip`; empty per-pixel results become the sentinel -9999 and the eight
fields are collapsed into one array, one row per field. -/
def gainLossClaim (p : LTPixel) (delta : String) (index_flip : Bool) : Arr :=
  let m := arrRow0 (mag p)
  let keep : List ℚ → List ℚ := fun xs =>
    if delta = "gain" then
      (xs.zip m).filterMap (fun q => if q.2 < 0 then some q.1 else none)
    else
      (xs.zip m).filterMap (fun q => if 0 < q.2 then some q.1 else none)
  let fq : ℚ := if index_flip then -1 else 1
  let rows : List (List ℚ) :=
    [keep (arrRow0 (start_year p)), keep (arrRow0 (end_year p)),
     (keep (arrRow0 (start_val p))).map (fun x => x * fq),
     (keep (arrRow0 (end_val p))).map (fun x => x * fq),
     (keep m).map (fun x => |x|),
     keep (arrRow0 (dur p)),
     (keep (arrRow0 (rate p))).map (fun x => |x|),
     (keep (arrRow0 (dsnr p))).map (fun x => |x|)]
  rows.map (fun r => if r.isEmpty then [-9999] else r)

/-- C4: for `delta == 'gain'` (respectively `'loss'`), `get_segment_data`
keeps exactly the segments whose raw magnitude is negative (respectively
positive); in the 8-field output `start_value` and `end_value` are multiplied
by -1 iff `index_flip` is true, while `magnitude`, `rate` and `dSNR` are
reported as their absolute value regardless of `index_flip`; masked/absent
entries are replaced by the sentinel -9999 and the result is collapsed to a
single per-pixel array. -/
theorem C4_gain_loss_mask_flip_abs
    (p : LTPixel) (index_flip : Bool) (options : Option GSDOpts) :
    get_segment_data_body p "gain" index_flip options
        = some (gainLossClaim p "gain" index_flip) ∧
    get_segment_data_body p "loss" index_flip options
        = some (gainLossClaim p "loss" index_flip) := by
  have hlen : ∀ c : ℚ, ∀ M : Arr, ∀ f ∈ [
      arrayMaskCols (start_year p) M,
      arrayMaskCols (end_year p) M,
      arrScale (arrayMaskCols (start_val p) M) c,
      arrScale (arrayMaskCols (end_val p) M) c,
      arrAbs (arrayMaskCols (mag p) M),
      arrayMaskCols (dur p) M,
      arrAbs (arrayMaskCols (rate p) M),
      arrAbs (arrayMaskCols (dsnr p) M)], f.length ≤ 1 := by
    intro c M f hf
    simp only [List.mem_cons, List.not_mem_nil, or_false] at hf
    have hmc : ∀ X : Arr, (arrayMaskCols X M).length = X.length := by
      intro X; unfold arrayMaskCols; rw [List.length_map]
    rcases hf with h | h | h | h | h | h | h | h <;> subst h <;>
      first
        | (rw [hmc]; first
            | exact start_year_len_le p
            | exact end_year_len_le p
            | exact dur_len_le p)
        | (unfold arrScale; rw [List.length_map, hmc];
           first
             | exact start_val_len_le p
             | exact end_val_len_le p)
        | (unfold arrAbs; rw [List.length_map, hmc];
           first
             | exact mag_len_le p
             | exact rate_len_le p
             | exact dsnr_len_le p)
  constructor
  · unfold get_segment_data_body gainLossClaim
    simp only [String.reduceEq, reduceIte, or_false, or_true, if_true]
    rw [catToArray0_rows _ (hlen _ _)]
    simp only [List.map_cons, List.map_nil]
    have hm : ∀ X : Arr, arrRow0 (arrayMaskCols X (arrLtZero (mag p)))
        = ((arrRow0 X).zip (arrRow0 (mag p))).filterMap
            (fun q => if q.2 < 0 then some q.1 else none) := by
      intro X
      exact arrRow0_maskCols_indicator (fun x => x < 0) (mag p) X
    have hsc : ∀ X : Arr, ∀ c : ℚ, arrRow0 (arrScale X c) = (arrRow0 X).map (fun x => x * c) := by
      intro X c; unfold arrScale; exact arrRow0_map _ rfl X
    have hab : ∀ X : Arr, arrRow0 (arrAbs X) = (arrRow0 X).map (fun x => |x|) := by
      intro X; unfold arrAbs; exact arrRow0_map _ rfl X
    rw [hsc, hsc, hab, hab, hab, hm, hm, hm, hm, hm, hm, hm, hm]
  · unfold get_segment_data_body gainLossClaim
    simp only [String.reduceEq, reduceIte, false_or, or_true, if_true]
    rw [catToArray0_rows _ (hlen _ _)]
    simp only [List.map_cons, List.map_nil]
    have hm : ∀ X : Arr, arrRow0 (arrayMaskCols X (arrGtZero (mag p)))
        = ((arrRow0 X).zip (arrRow0 (mag p))).filterMap
            (fun q => if 0 < q.2 then some q.1 else none) := by
      intro X
      exact arrRow0_maskCols_indicator (fun x => 0 < x) (mag p) X
    have hsc : ∀ X : Arr, ∀ c : ℚ, arrRow0 (arrScale X c) = (arrRow0 X).map (fun x => x * c) := by
      intro X c; unfold arrScale; exact arrRow0_map _ rfl X
    have hab : ∀ X : Arr, arrRow0 (arrAbs X) = (arrRow0 X).map (fun x => |x|) := by
      intro X; unfold arrAbs; exact arrRow0_map _ rfl X
    rw [hsc, hsc, hab, hab, hab, hm, hm, hm, hm, hm, hm, hm, hm]

section VertStack

/-- The padding row built by the loop on lines 153-155 is `maxSegments + 1`
zeros. -/
lemma emptyArr_eq (ms : ℕ) : emptyArr ms = List.replicate (ms + 1) (0 : ℚ) := by
  unfold emptyArr
  have h : ∀ l : List ℕ, l.map (fun _ => (0 : ℚ)) = List.replicate l.length 0 := by
    intro l
    induction l with
    | nil => rfl
    | cons a t ih => simp [ih, List.replicate_succ]
  rw [h, List.length_range']

/-- The vertex labels are `maxSegments + 1` names. -/
lemma vertLabels_len (ms : ℕ) : (vertLabels ms).length = ms + 1 := by
  unfold vertLabels
  rw [List.length_map, List.length_range']

/-- Projecting the names out of one flattened row. -/
lemma map_fst_zipNames (g : String → String) :
    ∀ (colL : List String) (r : List ℚ), colL.length ≤ r.length →
    ((colL.zip r).map (fun c => (g c.1, c.2))).map Prod.fst = colL.map g := by
  intro colL
  induction colL with
  | nil => intro r h; rfl
  | cons c cs ih =>
    intro r h
    cases r with
    | nil => simp at h
    | cons x xs =>
      simp only [List.zip_cons_cons, List.map_cons]
      rw [ih xs (by simpa using h)]

/-- The names produced by `arrayFlatten` are the row labels crossed with the
column labels. -/
lemma flatten2_map_fst (sep : String) :
    ∀ (rowL : List String) (a : Arr) (colL : List String),
    a.length = rowL.length → (∀ r ∈ a, r.length = colL.length) →
    (((rowL.zip a).flatMap
        (fun q => (colL.zip q.2).map (fun c => (q.1 ++ sep ++ c.1, c.2)))).map Prod.fst)
      = rowL.flatMap (fun nm => colL.map (fun c => nm ++ sep ++ c)) := by
  intro rowL
  induction rowL with
  | nil => intro a colL ha hr; rfl
  | cons nm rest ih =>
    intro a colL ha hr
    cases a with
    | nil => simp at ha
    | cons r arest =>
      simp only [List.zip_cons_cons, List.flatMap_cons, List.map_append]
      rw [map_fst_zipNames (fun c => nm ++ sep ++ c) colL r (le_of_eq (hr r (by simp)).symm),
        ih arest colL (by simpa using ha) (fun g hg => hr g (by simp [hg]))]

/-- Length of a label cross product. -/
lemma length_flatMap_cross (g : String → String → String) (rowL colL : List String) :
    (rowL.flatMap (fun nm => colL.map (g nm))).length = rowL.length * colL.length := by
  induction rowL with
  | nil => simp
  | cons nm rest ih =>
    simp only [List.flatMap_cons, List.length_append, List.length_map, List.length_cons, ih]
    ring

/-- When the shape matches, `arrayFlatten` succeeds with the row-major named
entries. -/
lemma arrayFlatten2_eq_some (a : Arr) (rowL colL : List String) (sep : String)
    (h1 : a.length = rowL.length) (h2 : ∀ r ∈ a, r.length = colL.length) :
    arrayFlatten2 a rowL colL sep
      = some ((rowL.zip a).flatMap
          (fun q => (colL.zip q.2).map (fun c => (q.1 ++ sep ++ c.1, c.2)))) := by
  unfold arrayFlatten2
  rw [if_pos ⟨h1, h2⟩]

/-- Evaluation of `getLTvertStack` on a contract-shaped `LandTrendr` array:
the flattened stack is built from the three vertex-masked informative rows,
each padded with the zero row and truncated to `maxSegments + 1` columns. -/
lemma getLTvertStack_eval (yrs src fit vm : List ℚ) (ms : ℕ) :
    getLTvertStack [yrs, src, fit, vm] ms
      = arrayFlatten2
          [(maskRow vm yrs ++ emptyArr ms).take (ms + 1),
           (maskRow vm src ++ emptyArr ms).take (ms + 1),
           (maskRow vm fit ++ emptyArr ms).take (ms + 1)]
          ["yrs_", "src_", "fit_"] (vertLabels ms) "" := by
  have h1 : arraySlice0 [yrs, src, fit, vm] 3 (some 4) = [vm] := by
    show pySlice [yrs, src, fit, vm] ((3 : ℕ) : ℤ) (some ((4 : ℕ) : ℤ)) = [vm]
    rw [pySlice_nat]
    rfl
  have h3 : arraySlice0 [maskRow vm yrs, maskRow vm src, maskRow vm fit, maskRow vm vm]
      0 (some 3) = [maskRow vm yrs, maskRow vm src, maskRow vm fit] := by
    show pySlice _ ((0 : ℕ) : ℤ) (some ((3 : ℕ) : ℤ)) = _
    rw [pySlice_nat]
    rfl
  have h4 : ∀ r : List ℚ, pySlice r 0 (some ((ms : ℤ) + 1)) = r.take (ms + 1) := by
    intro r
    show pySlice r ((0 : ℕ) : ℤ) (some (((ms + 1 : ℕ)) : ℤ)) = _
    rw [pySlice_nat]
    exact List.drop_zero _
  unfold getLTvertStack
  simp only [h1]
  rw [show arrayMaskCols [yrs, src, fit, vm] [vm]
      = [maskRow vm yrs, maskRow vm src, maskRow vm fit, maskRow vm vm] from rfl, h3]
  unfold addBandsToArray1 zerosArr arraySlice1
  simp only [List.zipWith_cons_cons, List.zipWith_nil_left, List.map_cons, List.map_nil, h4]

/-- C6: for every `SegmentationResult` pixel (the four contract rows, with any
per-pixel vertex count) and every configured `maxSegments`, `getLTvertStack`
produces exactly `3 × (maxSegments + 1)` named output bands — the three
families `yrs_`, `src_`, `fit_` each crossed with the vertex labels `vert_1`
through `vert_(maxSegments+1)`. -/
theorem C6_vert_stack_band_count_and_names (yrs src fit vm : List ℚ) (ms : ℕ) :
    ∃ st, getLTvertStack [yrs, src, fit, vm] ms = some st ∧
      st.map Prod.fst
        = ["yrs_", "src_", "fit_"].flatMap
            (fun fam => (vertLabels ms).map (fun v => fam ++ "" ++ v)) ∧
      st.length = 3 * (ms + 1) := by
  have hlen : ∀ r ∈ [(maskRow vm yrs ++ emptyArr ms).take (ms + 1),
      (maskRow vm src ++ emptyArr ms).take (ms + 1),
      (maskRow vm fit ++ emptyArr ms).take (ms + 1)], r.length = (vertLabels ms).length := by
    intro r hr
    have hz : (emptyArr ms).length = ms + 1 := by rw [emptyArr_eq, List.length_replicate]
    rw [vertLabels_len]
    simp only [List.mem_cons, List.not_mem_nil, or_false] at hr
    rcases hr with h | h | h <;> subst h <;>
      (rw [List.length_take, List.length_append, hz]; omega)
  have hshape : ([(maskRow vm yrs ++ emptyArr ms).take (ms + 1),
      (maskRow vm src ++ emptyArr ms).take (ms + 1),
      (maskRow vm fit ++ emptyArr ms).take (ms + 1)] : Arr).length
      = (["yrs_", "src_", "fit_"] : List String).length := rfl
  refine ⟨(["yrs_", "src_", "fit_"].zip
      [(maskRow vm yrs ++ emptyArr ms).take (ms + 1),
       (maskRow vm src ++ emptyArr ms).take (ms + 1),
       (maskRow vm fit ++ emptyArr ms).take (ms + 1)]).flatMap
      (fun q => ((vertLabels ms).zip q.2).map (fun c => (q.1 ++ "" ++ c.1, c.2))), ?_, ?_, ?_⟩
  · rw [getLTvertStack_eval]
    exact arrayFlatten2_eq_some _ _ _ _ hshape hlen
  · exact flatten2_map_fst "" ["yrs_", "src_", "fit_"] _ (vertLabels ms) hshape hlen
  · rw [← List.length_map _ Prod.fst,
      flatten2_map_fst "" ["yrs_", "src_", "fit_"] _ (vertLabels ms) hshape hlen,
      length_flatMap_cross (fun nm c => nm ++ "" ++ c), vertLabels_len]
    rfl

/-- C7 counterexample: the zero-filled padding array concatenated by
`getLTvertStack` is `zerosArr maxSegments`, whose total size is
`3 × (maxSegments + 1)`, not `3 × (maxSegments + 2)`: at `maxSegments = 1`
it has 6 entries, not 9. -/
theorem C7_padding_size_counterexample :
    (zerosArr 1).length = 3 ∧ (zerosArr 1).flatten.length = 3 * (1 + 1) ∧
      (zerosArr 1).flatten.length ≠ 3 * (1 + 2) := by
  refine ⟨rfl, rfl, by decide⟩

/-- The vertex-stack construction as amended: mask by the vertex-mask row,
slice to the 3 informative rows, concatenate a zero-filled padding array of
size `3 × (maxSegments + 1)`, and truncate to exactly `maxSegments + 1`
columns before flattening to named bands. -/
def vertStackClaim (yrs src fit vm : List ℚ) (ms : ℕ) : Option (List (String × ℚ)) :=
  let rows : Arr := [maskRow vm yrs, maskRow vm src, maskRow vm fit]
  let padded := rows.map (fun r => r ++ List.replicate (ms + 1) (0 : ℚ))
  let truncated := padded.map (fun r => r.take (ms + 1))
  arrayFlatten2 truncated ["yrs_", "src_", "fit_"] (vertLabels ms) ""

/-- C7 amended: `getLTvertStack` constructs its fixed-length output by
masking with the vertex-mask row, slicing to the 3 informative rows,
concatenating a zero-filled padding array of size `3 × (maxSegments + 1)`
(not `maxSegments + 2`), and truncating to exactly `maxSegments + 1`
columns. -/
theorem C7_construction_amended (yrs src fit vm : List ℚ) (ms : ℕ) :
    getLTvertStack [yrs, src, fit, vm] ms = vertStackClaim yrs src fit vm ms := by
  rw [getLTvertStack_eval]
  unfold vertStackClaim
  simp only [List.map_cons, List.map_nil, emptyArr_eq]

end VertStack

/-- C8: evaluation of `get_fitted_rgb_col` over the two-year range 2000-2001.
The loop builds one composite per year in ascending order, but the final
`map` on lines 132-135 tags every composite with `start_date`'s year: both
composites carry `composite_year = 2000` and the start date's timestamp,
instead of their own years 2000 and 2001. -/
theorem C8_rgb_year_tagging_eval :
    (get_fitted_rgb_col (fun _ => [1, 2]) ["B4", "B3", "B2"]
        ⟨2000, 1, 1⟩ ⟨2001, 1, 1⟩).map (fun l => l.map (fun im => im.composite_year))
      = some [2000, 2000] ∧
    (get_fitted_rgb_col (fun _ => [1, 2]) ["B4", "B3", "B2"]
        ⟨2000, 1, 1⟩ ⟨2001, 1, 1⟩).map (fun l => l.map (fun im => im.time_start))
      = some [(2000, 1, 1), (2000, 1, 1)] ∧
    ([2000, 2000] : List ℕ) ≠ [2000, 2001] := by
  refine ⟨rfl, rfl, by decide⟩

/-- C9: for every index name and every non-empty date range
(`start_date.year ≤ end_date.year`), `get_fitted_data` selects the
`ftv_<index>_fit` band family and returns exactly
`end_date.year − start_date.year + 1` bands, one per calendar year in the
inclusive range, named by the year's decimal string, in ascending year
order. -/
theorem C9_fitted_data_annual_bands (ftv : String → List ℚ) (index : String)
    (sd ed : PyDate) (hrange : sd.year ≤ ed.year)
    (hlen : (ftv (searchBand index)).length = ed.year + 1 - sd.year) :
    searchBand index = "ftv_" ++ index.toLower ++ "_fit" ∧
    ∃ l, get_fitted_data ftv index sd ed = some l ∧
      l.length = ed.year - sd.year + 1 ∧
      l.map Prod.fst
        = (List.range' sd.year (ed.year - sd.year + 1)).map (fun y => toString y) := by
  have heq : ed.year + 1 - sd.year = ed.year - sd.year + 1 := by omega
  have hl : ((List.range' sd.year (ed.year + 1 - sd.year)).map
      (fun y => toString y)).length = ed.year + 1 - sd.year := by
    rw [List.length_map, List.length_range']
  unfold get_fitted_data arrayFlatten1
  rw [if_pos (by rw [hl, hlen])]
  refine ⟨rfl, _, rfl, ?_, ?_⟩
  · rw [List.length_zip, hl, hlen, min_self, heq]
  · rw [List.map_fst_zip _ _ (by rw [hl, hlen]), heq]

/-- Witness for C9 on the range 2000-2003 with a 4-entry fitted array: four
bands named 2000, 2001, 2002, 2003, in that order. -/
theorem C9_fitted_data_annual_bands_witness :
    ((2000 : ℕ) ≤ 2003 ∧
     ((fun _ => ([1, 2, 3, 4] : List ℚ)) (searchBand "NBR")).length = 2003 + 1 - 2000) ∧
    (searchBand "NBR" = "ftv_" ++ "NBR".toLower ++ "_fit" ∧
     ∃ l, get_fitted_data (fun _ => ([1, 2, 3, 4] : List ℚ)) "NBR" ⟨2000, 1, 1⟩ ⟨2003, 6, 1⟩
        = some l ∧
      l.length = 2003 - 2000 + 1 ∧
      l.map Prod.fst = (List.range' 2000 (2003 - 2000 + 1)).map (fun y => toString y)) :=
  ⟨⟨by decide, rfl⟩,
   C9_fitted_data_annual_bands (fun _ => ([1, 2, 3, 4] : List ℚ)) "NBR"
     ⟨2000, 1, 1⟩ ⟨2003, 6, 1⟩ (by decide) rfl⟩

/-- Every cell belongs to its own flood-fill component. -/
lemma mem_component (g : Grid) (c : ℕ × ℕ) : c ∈ component g c := by
  unfold component
  generalize cellCount g + 1 = n
  induction n with
  | zero => simp
  | succ k ih =>
    rw [Function.iterate_succ_apply']
    unfold floodStep
    exact List.mem_dedup.mpr (List.mem_append_left _ ih)

/-- C10 counterexample: `apply_mmu` with `mmu_value = 1` is not a pass-through
of all nonzero pixels: the single-pixel raster with nonzero value -1 comes
back 0, because line 36 keeps pixels via `gte(1)` (value at least 1), not
"nonzero". -/
theorem C10_nonzero_passthrough_counterexample :
    apply_mmu [[-1]] 1 = [[0]] ∧ ((-1 : ℚ) ≠ 0) := by
  refine ⟨rfl, by norm_num⟩

/-- C10 amended: for every single-band raster, a pixel of `apply_mmu` is
retained (1) iff its value is at least 1 and it belongs to a connected
component of pixels with value at least 1 of size ≥ `mmu_value`, and is 0
otherwise; with `mmu_value = 1` the filter passes through exactly the pixels
with value at least 1. -/
theorem C10_mmu_retention_amended (g : Grid) (mmu i j : ℕ)
    (hi : i < g.length) (hj : j < ((g.get? i).getD []).length) :
    gridGet (apply_mmu g mmu) (i, j)
      = some (if fgMem g (i, j) = true ∧ mmu ≤ (component g (i, j)).length then 1 else 0) ∧
    (mmu = 1 → (gridGet (apply_mmu g mmu) (i, j) = some 1 ↔ fgMem g (i, j) = true)) := by
  have hmain : gridGet (apply_mmu g mmu) (i, j)
      = some (if fgMem g (i, j) = true ∧ mmu ≤ (component g (i, j)).length then 1 else 0) := by
    unfold gridGet apply_mmu
    rw [List.get?_eq_getElem?, List.getElem?_map, List.getElem?_range hi]
    simp only [Option.map_some', Option.some_bind]
    rw [List.get?_eq_getElem?, List.getElem?_map, List.getElem?_range hj]
    simp only [Option.map_some']
    unfold connectedPixelCount
    by_cases hfg : fgMem g (i, j)
    · rw [if_pos hfg]
      show some (if mmu ≤ (component g (i, j)).length then (1 : ℚ) else 0) = _
      by_cases hm : mmu ≤ (component g (i, j)).length
      · rw [if_pos hm, if_pos ⟨hfg, hm⟩]
      · rw [if_neg hm, if_neg (by tauto)]
    · rw [if_neg hfg]
      show some (0 : ℚ) = _
      rw [if_neg (by tauto)]
  refine ⟨hmain, ?_⟩
  intro h1
  subst h1
  constructor
  · intro hout
    by_contra hfg
    rw [hmain, if_neg (by tauto)] at hout
    have : (0 : ℚ) = 1 := by injection hout
    norm_num at this
  · intro hfg
    have hmem : 1 ≤ (component g (i, j)).length :=
      List.length_pos.mpr (List.ne_nil_of_mem (mem_component g (i, j)))
    rw [hmain, if_pos ⟨hfg, hmem⟩]

/-- Witness for the amended C10 on a 2×3 raster whose top-left pixel sits in
an L-shaped component of three pixels, with `mmu_value = 2`. -/
theorem C10_mmu_retention_amended_witness :
    ((0 : ℕ) < ([[1, 1, 0], [0, 1, 0]] : Grid).length ∧
     (0 : ℕ) < ((([[1, 1, 0], [0, 1, 0]] : Grid).get? 0).getD []).length) ∧
    (gridGet (apply_mmu [[1, 1, 0], [0, 1, 0]] 2) (0, 0)
        = some (if fgMem [[1, 1, 0], [0, 1, 0]] (0, 0) = true ∧
            2 ≤ (component [[1, 1, 0], [0, 1, 0]] (0, 0)).length then 1 else 0) ∧
     (2 = 1 → (gridGet (apply_mmu [[1, 1, 0], [0, 1, 0]] 2) (0, 0) = some 1 ↔
        fgMem [[1, 1, 0], [0, 1, 0]] (0, 0) = true))) :=
  ⟨⟨by decide, by decide⟩,
   C10_mmu_retention_amended [[1, 1, 0], [0, 1, 0]] 2 0 0 (by decide) (by decide)⟩

end LTS2
